import Mathlib

/-!
Verification of the self-update orchestration core of Chiv2AdminDashboard
(`C2ServerAPI/core/autoupdater.py`), as a shallow embedding in Lean 4.

The embedding follows the Python source function by function:
* `parse_semver` — the regex-based 4-component version extractor (line 121-131);
* `find_latest_exe_asset` / `find_best` — the artifact selector (line 146-197);
* `needsUpdateDecision` — the inline comparator of `handle_update_flow`
  (line 397-420);
* `_parse_apply_args` / `run_apply_update` — the installer (line 279-361),
  modelled as a pure state transformer over an abstract filesystem `FS`
  with an oracle environment `InstallerEnv` deciding the outcome of each
  fallible OS operation (download, the two retried renames, spawns);
* `flowOutcome` / `handle_update_flow` — the orchestrator entry point
  (line 364-452), likewise over an oracle environment `MainEnv`.

Python-specific conventions made explicit: JSON dictionary fields that may
be missing are `Option String`; Python `x or d` on such fields is `pyOr`
(`""` counts as falsy); `str(None)` is the literal string `"None"` (`pyStr`).
-/

/-- A 4-component version `(major, minor, patch, build)` as produced by
`parse_semver` and `_get_file_version_tuple`. -/
structure Version where
  a : Nat
  b : Nat
  c : Nat
  d : Nat
deriving DecidableEq, Repr

/-- Python `x or default` for an optional JSON string field:
`None` and `""` are falsy. -/
def pyOr (o : Option String) (d : String) : String :=
  match o with
  | some s => if s = "" then d else s
  | none => d

/-- Python `x or y` where both operands are optional strings
(used for `st.get("installed_remote_id") or st.get("installed_remote_version")`). -/
def pyOrOpt (a b : Option String) : Option String :=
  match a with
  | some s => if s = "" then b else some s
  | none => b

/-- Python `str(x)` on a value that is either a string or `None`. -/
def pyStr : Option String → String
  | none => "None"
  | some s => s

/-- Lower-casing of a string, `str.lower()` (ASCII, which is all the
source compares). -/
def strLower (s : String) : String :=
  ⟨s.data.map Char.toLower⟩

/-- Python `str.strip()`: drop whitespace from both ends. -/
def pyStrip (s : String) : String :=
  ⟨((s.data.dropWhile Char.isWhitespace).reverse.dropWhile Char.isWhitespace).reverse⟩

/-- Python `str.endswith(suffix)`. -/
def strEndsWith (s suf : String) : Bool :=
  suf.data.isSuffixOf s.data

/-- Contiguous sublist test on character lists. -/
def listInfix (sub : List Char) : List Char → Bool
  | [] => decide (sub = [])
  | c :: t => sub.isPrefixOf (c :: t) || listInfix sub t

/-- Python `sub in s` substring test. -/
def strContains (s sub : String) : Bool :=
  listInfix sub.data s.data

/-- Python `s.startswith(pre)`. -/
def strStartsWith (s p : String) : Bool :=
  p.data.isPrefixOf s.data

/-- Python `os.path.splitext` on a bare filename: split at the last dot,
unless every character before that dot is itself a dot. -/
def splitext (s : String) : String × String :=
  let r := s.data.reverse
  let ext := r.takeWhile (fun c => c ≠ '.')
  match r.dropWhile (fun c => c ≠ '.') with
  | [] => (s, "")
  | _ :: stemRev =>
    if stemRev.any (fun c => c ≠ '.') then
      (⟨stemRev.reverse⟩, ⟨'.' :: ext.reverse⟩)
    else (s, "")

/-- Decimal digit run to the number it denotes, Python `int(...)`. -/
def digitsToNat (l : List Char) : Nat :=
  l.foldl (fun acc c => acc * 10 + (c.toNat - '0'.toNat)) 0

/-- One attempt of the regex `(\d+)\.(\d+)\.(\d+)(?:\.(\d+))?` anchored at
the head of the character list (greedy digit runs, optional fourth group). -/
def matchSemverAt (l : List Char) : Option Version :=
  let d1 := l.takeWhile Char.isDigit
  let r1 := l.dropWhile Char.isDigit
  if d1 = [] then none else
  match r1 with
  | '.' :: r2 =>
    let d2 := r2.takeWhile Char.isDigit
    let r3 := r2.dropWhile Char.isDigit
    if d2 = [] then none else
    match r3 with
    | '.' :: r4 =>
      let d3 := r4.takeWhile Char.isDigit
      let r5 := r4.dropWhile Char.isDigit
      if d3 = [] then none else
      match r5 with
      | '.' :: r6 =>
        let d4 := r6.takeWhile Char.isDigit
        if d4 = [] then some ⟨digitsToNat d1, digitsToNat d2, digitsToNat d3, 0⟩
        else some ⟨digitsToNat d1, digitsToNat d2, digitsToNat d3, digitsToNat d4⟩
      | _ => some ⟨digitsToNat d1, digitsToNat d2, digitsToNat d3, 0⟩
    | _ => none
  | _ => none

/-- `re.search`: try the pattern at each start position, left to right. -/
def searchSemver : List Char → Option Version
  | [] => none
  | c :: rest =>
    match matchSemverAt (c :: rest) with
    | some v => some v
    | none => searchSemver rest

/-- `parse_semver` (autoupdater.py line 124-131): first match of
`(\d+)\.(\d+)\.(\d+)(?:\.(\d+))?` in the text, absent fourth component
defaulting to 0; `None` when the text is empty or has no match. -/
def parse_semver (text : String) : Option Version :=
  searchSemver text.data

/-- One release asset, the fields of the GitHub JSON the source reads
(`name`, `browser_download_url`, `updated_at`); missing keys are `none`. -/
structure Asset where
  name : Option String
  browser_download_url : Option String
  updated_at : Option String
deriving DecidableEq, Repr

/-- One release of the catalog: `draft`, `prerelease` (truthiness of the
JSON values), `tag_name`, and the asset list. -/
structure Release where
  draft : Bool
  prerelease : Bool
  tag_name : Option String
  assets : List Asset
deriving DecidableEq, Repr

/-- A candidate yielded by the generator `candidates` inside
`find_latest_exe_asset`: the release, the asset, and the version parsed
from the release tag. -/
structure Cand where
  rel : Release
  asset : Asset
  tagVer : Option Version
deriving DecidableEq, Repr

/-- The generator `candidates(allow_prerelease)` (line 151-162): skip
drafts, skip prereleases unless allowed, keep assets whose lowercased
name ends in `.exe`, pairing each with the release-tag version. -/
def candidates (releases : List Release) (allowPre : Bool) : List Cand :=
  releases.flatMap (fun rel =>
    if rel.draft then []
    else if !allowPre && rel.prerelease then []
    else
      ((rel.assets.filter (fun a =>
          strEndsWith (strLower (pyOr a.name "")) ".exe")).map
        (fun a => ⟨rel, a, parse_semver (pyOr rel.tag_name "")⟩)))

/-- The version attached to a candidate in the selection loop:
`v = parse_semver(name) or tag_ver` (line 168). -/
def candV (c : Cand) : Option Version :=
  match parse_semver (pyOr c.asset.name "") with
  | some t => some t
  | none => c.tagVer

/-- The composite ranking key `(prefer, v is not None, v or (0,0,0,0),
updated_at or "")` of line 183. -/
structure SelKey where
  prefer : Nat
  hasV : Bool
  v : Version
  updated : String
deriving DecidableEq, Repr

/-- The name-affinity tier of line 170-181. -/
def preferTier (preferredLc preferredStem nameLc : String) : Nat :=
  if preferredLc ≠ "" ∧ nameLc = preferredLc then 3
  else if preferredLc ≠ "" ∧ strContains nameLc preferredLc = true then 2
  else if preferredStem ≠ "" ∧ (strStartsWith nameLc preferredStem = true ∨
      strContains nameLc preferredStem = true) then 2
  else if strContains nameLc "admindashboard" = true ∨
      strContains nameLc "dashboard" = true then 1
  else 0

/-- The full ranking key of a candidate. -/
def selKey (preferredLc preferredStem : String) (c : Cand) : SelKey :=
  let name := pyOr c.asset.name ""
  let v := candV c
  ⟨preferTier preferredLc preferredStem (strLower name),
   v.isSome, v.getD ⟨0, 0, 0, 0⟩, pyOr c.asset.updated_at ""⟩

/-- Python `>` on the 4-tuple of version components (lexicographic). -/
def verGtB (x y : Version) : Bool :=
  if x.a ≠ y.a then decide (x.a > y.a)
  else if x.b ≠ y.b then decide (x.b > y.b)
  else if x.c ≠ y.c then decide (x.c > y.c)
  else decide (x.d > y.d)

/-- Python `>` on the composite key tuple (int, bool, 4-tuple, str),
lexicographic with `False < True` on the bool. -/
def keyGtB (x y : SelKey) : Bool :=
  if x.prefer ≠ y.prefer then decide (x.prefer > y.prefer)
  else if x.hasV ≠ y.hasV then x.hasV
  else if x.v ≠ y.v then verGtB x.v y.v
  else decide (y.updated < x.updated)

/-- The `best`-updating loop of line 165-185 over one candidate list:
keep the incumbent unless the new key is strictly greater. -/
def pickBestAux (pLc pStem : String) :
    Option (SelKey × Cand) → List Cand → Option (SelKey × Cand)
  | best, [] => best
  | best, c :: rest =>
    let k := selKey pLc pStem c
    let best' :=
      match best with
      | none => some (k, c)
      | some b => if keyGtB k b.1 then some (k, c) else some b
    pickBestAux pLc pStem best' rest

/-- `preferred_lc = (preferred_filename or "").strip().lower()` (line 148). -/
def prefLc (preferred_filename : String) : String :=
  strLower (pyStrip preferred_filename)

/-- `preferred_stem = os.path.splitext(preferred_lc)[0] if preferred_lc
else ""` (line 149). -/
def prefStem (preferred_filename : String) : String :=
  if prefLc preferred_filename ≠ "" then (splitext (prefLc preferred_filename)).1
  else ""

/-- The selector core: pass A (stable releases only), then pass B
(prereleases allowed) only when pass A produced no best candidate
(the `break` of line 186-187). -/
def find_best (releases : List Release) (preferred_filename : String) :
    Option (SelKey × Cand) :=
  match pickBestAux (prefLc preferred_filename) (prefStem preferred_filename)
      none (candidates releases false) with
  | some b => some b
  | none =>
    pickBestAux (prefLc preferred_filename) (prefStem preferred_filename)
      none (candidates releases true)

/-- The dictionary returned by `find_latest_exe_asset` (line 192-197). -/
structure Pick where
  asset_name : Option String
  download_url : Option String
  version_tuple : Option Version
  release_tag : Option String
deriving DecidableEq, Repr

/-- `find_latest_exe_asset` (line 146-197): the projection of the best
candidate to the result dictionary. -/
def find_latest_exe_asset (releases : List Release)
    (preferred_filename : String) : Option Pick :=
  (find_best releases preferred_filename).map (fun b =>
    ⟨b.2.asset.name, b.2.asset.browser_download_url, candV b.2,
     b.2.rel.tag_name⟩)

/-- The persisted update-state JSON object (`autoupdate_state.json`,
line 113-118 and 325-331); a missing file or key is `none`. -/
structure InstalledStateFile where
  installed_remote_version : Option String := none
  installed_remote_id : Option String := none
  installed_at : Option String := none
  installed_path : Option String := none
deriving DecidableEq, Repr

/-- The dot-joined version string `".".join(map(str, tuple(remote_v)))`
of line 405. -/
def versionToString (v : Version) : String :=
  toString v.a ++ "." ++ toString v.b ++ "." ++ toString v.c ++ "." ++ toString v.d

/-- The `remote_id` computed at line 402-409: the dot-joined parsed
version if any, else the release tag (with `"" or None` collapsing an
empty tag to `None`). -/
def remoteId (pick : Pick) : Option String :=
  match pick.version_tuple with
  | some v => some (versionToString v)
  | none =>
    match pick.release_tag with
    | some t => if t = "" then none else some t
    | none => none

/-- The update decision of `handle_update_flow` line 397-420: the
unversioned-candidate short-circuit, then the three-tier comparison
(both versions known / only remote known / neither known). -/
def needsUpdateDecision (current_v : Option Version) (pick : Pick)
    (st : InstalledStateFile) : Bool :=
  let installed_id := pyOrOpt st.installed_remote_id st.installed_remote_version
  if pick.version_tuple = none ∧ installed_id = pick.release_tag then false
  else
    match current_v, pick.version_tuple with
    | some c, some r => verGtB r c
    | none, some _ => decide (pyStr (remoteId pick) ≠ pyStr installed_id)
    | _, none => decide (pick.release_tag ≠ installed_id)

/-- Split the installer argv at the first `"--"` separator
(line 282-285): tokens before it are scanned for options, tokens after
it are the passthrough arguments. -/
def splitAtDashDash : List String → List String × List String
  | [] => ([], [])
  | tok :: rest =>
    if tok = "--" then ([], rest)
    else
      let p := splitAtDashDash rest
      (tok :: p.1, p.2)

/-- The option scan of line 286-293: each recognised flag consumes the
next token (`next(it, None)`), later occurrences overwrite earlier ones. -/
def scanApplyArgs (u t r : Option String) :
    List String → Option String × Option String × Option String
  | [] => (u, t, r)
  | tok :: rest =>
    if tok = "--url" then
      match rest with
      | [] => scanApplyArgs none t r []
      | v :: rest2 => scanApplyArgs (some v) t r rest2
    else if tok = "--target" then
      match rest with
      | [] => scanApplyArgs u none r []
      | v :: rest2 => scanApplyArgs u (some v) r rest2
    else if tok = "--remote-version" then
      match rest with
      | [] => scanApplyArgs u t none []
      | v :: rest2 => scanApplyArgs u t (some v) rest2
    else scanApplyArgs u t r rest

/-- `_parse_apply_args` (line 279-294). -/
def _parse_apply_args (argv : List String) :
    Option String × Option String × Option String × List String :=
  let p := splitAtDashDash argv
  let s := scanApplyArgs none none none p.1
  (s.1, s.2.1, s.2.2, p.2)

/-- Abstract filesystem state seen by the installer: the contents (as
opaque labels) at the target path, at the `.old` backup path, at the
fresh temp download path, and the parsed content of the persisted state
file. -/
structure FS where
  target : Option Nat
  backup : Option Nat
  tmp : Option Nat
  stateFile : InstalledStateFile
deriving DecidableEq, Repr

/-- Oracle outcomes for the fallible OS operations of one installer run:
the download, the two retried renames, the state write, and each of the
process spawns (`Popen` of the relaunch candidates and of the freshly
installed target), plus the downloaded content label and the timestamp
string. -/
structure InstallerEnv where
  downloadOk : Bool
  downloadedContent : Nat
  backupRenameOk : Bool
  installRenameOk : Bool
  saveOk : Bool
  nowString : String
  spawnTargetOk : Bool
  spawnBackupOk : Bool
  launchNewOk : Bool
  removeOldOk : Bool
deriving DecidableEq, Repr

/-- Result of one modelled installer run: the final filesystem, every
`Popen` attempted (path and arguments) and those that succeeded, and
flags recording whether the download was started, whether the rename of
the downloaded artifact into the target was attempted, and whether the
run took the exception path. -/
structure InstallerResult where
  fs : FS
  spawnAttempts : List (String × List String)
  spawned : List (String × List String)
  downloadAttempted : Bool
  installRenameAttempted : Bool
  failed : Bool
deriving DecidableEq, Repr

/-- One relaunch candidate of the failure fallback loop (line 341-347):
its path, whether the path exists, and whether `Popen` on it would
succeed. -/
structure RelCand where
  path : String
  present : Bool
  spawnOk : Bool
deriving DecidableEq, Repr

/-- The fallback loop of line 341-347: skip falsy or missing candidates,
stop after the first successful spawn, swallow spawn failures and move
on. Returns (attempted spawns, successful spawns). -/
def relaunchLoop (pass : List String) :
    List RelCand → List (String × List String) × List (String × List String)
  | [] => ([], [])
  | c :: rest =>
    if c.path = "" then relaunchLoop pass rest
    else if c.present then
      if c.spawnOk then ([(c.path, pass)], [(c.path, pass)])
      else
        let r := relaunchLoop pass rest
        ((c.path, pass) :: r.1, r.2)
    else relaunchLoop pass rest

/-- The failure fallback applied to `(target, backup)` with their
existence read from the filesystem. -/
def relaunchFallback (env : InstallerEnv) (fs : FS) (target backup : String)
    (pass : List String) :
    List (String × List String) × List (String × List String) :=
  relaunchLoop pass
    [⟨target, fs.target.isSome, env.spawnTargetOk⟩,
     ⟨backup, fs.backup.isSome, env.spawnBackupOk⟩]

/-- The state-file update of line 325-331 (all four keys overwritten,
`installed_remote_version` and `installed_remote_id` both set to the
`--remote-version` argument verbatim). -/
def stateAfterInstall (remote_ver : Option String) (now target : String)
    (st : InstalledStateFile) : InstalledStateFile :=
  { st with
    installed_remote_version := remote_ver,
    installed_remote_id := remote_ver,
    installed_at := some now,
    installed_path := some target }

/-- An installer run that returns before any side effect (missing url or
target, line 303-304). -/
def noEffect (fs : FS) : InstallerResult :=
  ⟨fs, [], [], false, false, false⟩

/-- The `except` branch of `_run_apply_update` (line 333-348): keep the
filesystem as it stands and run the relaunch fallback. -/
def failResult (env : InstallerEnv) (fs : FS) (target backup : String)
    (pass : List String) (renameTried : Bool) : InstallerResult :=
  let r := relaunchFallback env fs target backup pass
  ⟨fs, r.1, r.2, true, renameTried, true⟩

/-- The success tail of `_run_apply_update` (line 350-361): launch the
new target; only when that spawn succeeded, best-effort delete of the
`.old` backup (its failure swallowed). -/
def successLaunch (env : InstallerEnv) (fs : FS) (target : String)
    (pass : List String) : InstallerResult :=
  if env.launchNewOk then
    let fs2 := if fs.backup.isSome && env.removeOldOk then
        { fs with backup := none } else fs
    ⟨fs2, [(target, pass)], [(target, pass)], true, true, false⟩
  else
    ⟨fs, [(target, pass)], [], true, true, false⟩

/-- The rename of the downloaded artifact into the target path and what
follows it (line 323-331): on success move the temp content to the
target, write the state file (a failed write is swallowed, leaving the
file as it was), then launch; on failure take the exception path. -/
def installRenameStep (env : InstallerEnv) (fs : FS) (target backup : String)
    (remote_ver : Option String) (pass : List String) : InstallerResult :=
  if env.installRenameOk then
    let fs2 : FS := { fs with target := fs.tmp, tmp := none }
    let fs3 : FS :=
      if env.saveOk then
        { fs2 with stateFile :=
            stateAfterInstall remote_ver env.nowString target fs2.stateFile }
      else fs2
    successLaunch env fs3 target pass
  else failResult env fs target backup pass true

/-- The `try` body of `_run_apply_update` (line 307-331): fresh temp
dir, download, optional backup rename of an existing target, install
rename, state write. Each failure falls to the `except` branch with the
filesystem as it stood at that point. -/
def installBody (env : InstallerEnv) (fs0 : FS) (target : String)
    (remote_ver : Option String) (pass : List String) : InstallerResult :=
  let backup := target ++ ".old"
  let fs1 : FS := { fs0 with tmp := none }
  if env.downloadOk then
    let fs2 : FS := { fs1 with tmp := some env.downloadedContent }
    if fs2.target.isSome then
      if env.backupRenameOk then
        installRenameStep env
          { fs2 with backup := fs2.target, target := none }
          target backup remote_ver pass
      else failResult env fs2 target backup pass false
    else installRenameStep env fs2 target backup remote_ver pass
  else failResult env fs1 target backup pass false

/-- `_run_apply_update` (line 297-361): parse the task arguments; a
missing or empty url or target returns with no side effect at all;
otherwise run the install body. -/
def run_apply_update (env : InstallerEnv) (fs0 : FS) (argv : List String) :
    InstallerResult :=
  match _parse_apply_args argv with
  | (url, targetOpt, remote_ver, pass) =>
    match url, targetOpt with
    | some u, some t =>
      if u = "" ∨ t = "" then noEffect fs0
      else installBody env fs0 t remote_ver pass
    | _, _ => noEffect fs0

/-- Oracle environment for one main-role orchestrator run: frozen flag,
catalog fetch outcome, the running executable's basename and readable
version, the loaded state file, and the outcomes of the temp self-copy
and of the updater spawn. -/
structure MainEnv where
  frozen : Bool
  fetch : Except Unit (List Release)
  exeBasename : String
  currentV : Option Version
  st : InstalledStateFile
  copyOk : Bool
  spawnOk : Bool

/-- Where one `handle_update_flow` invocation ends (each constructor is
one of the source's return points). -/
inductive MainOutcome where
  | updaterRole
  | suppressed
  | fetchFailed
  | noCandidate
  | upToDate
  | copyFailed
  | spawnFailed
  | updateStarted
deriving DecidableEq, Repr

/-- `handle_update_flow` (line 364-452) as the return point it reaches:
updater role short-circuits; the main role is suppressed when not frozen
or when `--skip-update` is passed; then fetch, select, decide, copy,
spawn, with every failure caught and ending the check. -/
def flowOutcome (env : MainEnv) (argv : List String) : MainOutcome :=
  if argv.contains "--apply-update" then .updaterRole
  else if !env.frozen || argv.contains "--skip-update" then .suppressed
  else
    match env.fetch with
    | .error _ => .fetchFailed
    | .ok releases =>
      match find_latest_exe_asset releases env.exeBasename with
      | none => .noCandidate
      | some pick =>
        if pyOr pick.download_url "" = "" then .noCandidate
        else if needsUpdateDecision env.currentV pick env.st then
          if env.copyOk then
            if env.spawnOk then .updateStarted else .spawnFailed
          else .copyFailed
        else .upToDate

/-- The boolean `handle_update_flow` returns: `true` exactly for the
updater role and for a successfully started update. -/
def handle_update_flow (env : MainEnv) (argv : List String) : Bool :=
  match flowOutcome env argv with
  | .updaterRole => true
  | .updateStarted => true
  | _ => false

/-- The argument vector the orchestrator passes to the spawned installer
(line 436-446, without the leading executable path): task payload, the
`--` separator, then the original arguments. -/
def installerCmdArgs (pick : Pick) (exePath : String) (argv : List String) :
    List String :=
  ["--apply-update", "--url", pyOr pick.download_url "", "--target", exePath,
   "--remote-version", pyOr (remoteId pick) "", "--"] ++ argv


/-- The filesystem as the installer's `except` branch sees it, as a
function of the initial filesystem and the oracle outcomes: after a
failed download the fresh temp directory holds nothing of interest;
after a failed backup rename the download is in place and nothing moved;
after the backup rename succeeded the target has moved to the backup
slot. Consulted only for runs that fail. -/
def fsAtFailure (env : InstallerEnv) (fs0 : FS) : FS :=
  if env.downloadOk = false then { fs0 with tmp := none }
  else if fs0.target.isSome then
    if env.backupRenameOk = false then
      { fs0 with tmp := some env.downloadedContent }
    else
      { fs0 with
          tmp := some env.downloadedContent
          backup := fs0.target
          target := none }
  else { fs0 with tmp := some env.downloadedContent }

/-- Strict lexicographic order on 4-component versions, componentwise on
the integers: the order the specification describes. -/
def VersionLt (x y : Version) : Prop :=
  x.a < y.a ∨ (x.a = y.a ∧ (x.b < y.b ∨ (x.b = y.b ∧
    (x.c < y.c ∨ (x.c = y.c ∧ x.d < y.d)))))

instance (x y : Version) : Decidable (VersionLt x y) := by
  unfold VersionLt
  exact inferInstance

/-- Concrete catalog for the round-trip scenario: one stable release
whose exe asset carries a parseable version. -/
def c2rels : List Release :=
  [⟨false, false, some "v1.2.0", [⟨some "AdminDashboard-1.2.0.exe", some "u", some ""⟩]⟩]

/-- The selector's result on `c2rels`. -/
def c2pick : Pick :=
  ⟨some "AdminDashboard-1.2.0.exe", some "u", some ⟨1, 2, 0, 0⟩, some "v1.2.0"⟩

/-- An installer oracle where every operation succeeds. -/
def instEnvOk : InstallerEnv :=
  ⟨true, 7, true, true, true, "now", true, true, true, true⟩

/-- Initial filesystem for the round-trip scenario: a target exists, no
backup, empty state file. -/
def c2fs0 : FS := ⟨some 1, none, none, {}⟩

/-- The state file the installer persists in the round-trip scenario. -/
def c2stAfter : InstalledStateFile :=
  ⟨some "1.2.0.0", some "1.2.0.0", some "now", some "C:/app.exe"⟩

/-- Concrete catalog for the amended round-trip witness: a stable
release with an unversioned asset name and a versioned tag. -/
def w2rels : List Release :=
  [⟨false, false, some "1.2.3", [⟨some "setup.exe", some "u", some ""⟩]⟩]

/-- The selector's result on `w2rels` (version from the tag). -/
def w2pick : Pick := ⟨some "setup.exe", some "u", some ⟨1, 2, 3, 0⟩, some "1.2.3"⟩

/-- Orchestrator environment for the amended round-trip witness: catalog
unchanged, own version unreadable, state as the installer persisted it. -/
def w2env : MainEnv :=
  ⟨true, .ok w2rels, "x", none,
   ⟨some "1.2.3.0", some "1.2.3.0", some "now", some "p"⟩, true, true⟩

/-- Concrete catalog for the pass-A dominance witness: one stable
release and one prerelease with a strictly higher version. -/
def c3rels : List Release :=
  [⟨false, true, some "2.0.0", [⟨some "admindashboard-2.0.0.exe", some "u2", some ""⟩]⟩,
   ⟨false, false, some "1.0.0", [⟨some "admindashboard-1.0.0.exe", some "u1", some ""⟩]⟩]

/-- Concrete catalog for the draft-exclusion witness: a draft release
with a high version and a prerelease with a lower one. -/
def c8rels : List Release :=
  [⟨true, false, some "9.0.0", [⟨some "dashboard-9.0.0.exe", some "u9", some ""⟩]⟩,
   ⟨false, true, some "0.1.0", [⟨some "dashboard-0.1.0.exe", some "u0", some ""⟩]⟩]

theorem verGtB_eq_true_iff (x y : Version) : verGtB x y = true ↔ VersionLt y x := by
  obtain ⟨a, b, c, d⟩ := x
  obtain ⟨a2, b2, c2, d2⟩ := y
  simp only [verGtB, VersionLt, decide_eq_true_eq]
  split_ifs <;> simp_all <;> omega

theorem versionLt_asymm (x y : Version) : VersionLt x y → ¬ VersionLt y x := by
  obtain ⟨a, b, c, d⟩ := x
  obtain ⟨a2, b2, c2, d2⟩ := y
  simp only [VersionLt]
  omega

theorem versionLt_irrefl (x : Version) : ¬ VersionLt x x := by
  obtain ⟨a, b, c, d⟩ := x
  simp only [VersionLt]
  omega

theorem needsUpdate_both_some (pick : Pick) (st : InstalledStateFile)
    (c r : Version) (h : pick.version_tuple = some r) :
    needsUpdateDecision (some c) pick st = verGtB r c := by
  simp [needsUpdateDecision, h]

/-- C1: when both the running binary's version and the candidate's parsed
version exist, the comparator orders an update exactly when the candidate
4-tuple is strictly greater under lexicographic componentwise integer
comparison, and orders no update when the tuples are equal or the
candidate is smaller. -/
theorem comparator_lex_iff (pick : Pick) (st : InstalledStateFile)
    (c r : Version) (h : pick.version_tuple = some r) :
    (needsUpdateDecision (some c) pick st = true ↔ VersionLt c r)
    ∧ (r = c ∨ VersionLt r c → needsUpdateDecision (some c) pick st = false) := by
  have hdec := needsUpdate_both_some pick st c r h
  constructor
  · rw [hdec, verGtB_eq_true_iff]
  · rintro (rfl | hlt)
    · rw [hdec, ← Bool.not_eq_true, verGtB_eq_true_iff]
      exact versionLt_irrefl r
    · rw [hdec, ← Bool.not_eq_true, verGtB_eq_true_iff]
      exact versionLt_asymm r c hlt

/-- Witness for C1 at a concrete input. -/
theorem comparator_lex_iff_witness :
    needsUpdateDecision (some ⟨1, 0, 0, 0⟩)
      ⟨some "a-1.2.0.exe", some "u", some ⟨1, 2, 0, 0⟩, some "v"⟩ {} = true :=
  (comparator_lex_iff ⟨some "a-1.2.0.exe", some "u", some ⟨1, 2, 0, 0⟩, some "v"⟩
    {} ⟨1, 0, 0, 0⟩ ⟨1, 2, 0, 0⟩ rfl).1.mpr (by decide)

/-- C4 counterexample: a selected candidate whose filename parses to no
version but whose release tag does (`version_tuple` falls back to the
tag), with the tag equal to the stored identifier and a lower current
version: the claimed short-circuit does not fire and the comparator
orders an update. -/
theorem comparator_shortcircuit_counterexample :
    parse_semver "app.exe" = none
    ∧ find_latest_exe_asset
        [⟨false, false, some "1.2.3", [⟨some "app.exe", some "u", some ""⟩]⟩] ""
        = some ⟨some "app.exe", some "u", some ⟨1, 2, 3, 0⟩, some "1.2.3"⟩
    ∧ pyOrOpt (some "1.2.3") none = some "1.2.3"
    ∧ needsUpdateDecision (some ⟨1, 0, 0, 0⟩)
        ⟨some "app.exe", some "u", some ⟨1, 2, 3, 0⟩, some "1.2.3"⟩
        ⟨none, some "1.2.3", none, none⟩ = true := by decide

/-- C4 amended: the short-circuit fires when the candidate's parsed
version — from the filename or, failing that, from the release tag, the
`version_tuple` the selector attaches — is absent and the release tag
equals the stored installed identifier; then the comparator orders no
update regardless of the running binary's own version. -/
theorem comparator_shortcircuit_amended (pick : Pick) (st : InstalledStateFile)
    (cur : Option Version) (hv : pick.version_tuple = none)
    (hid : pyOrOpt st.installed_remote_id st.installed_remote_version
      = pick.release_tag) :
    needsUpdateDecision cur pick st = false := by
  simp [needsUpdateDecision, hv, hid]

/-- Witness for the amended C4 at a concrete input. -/
theorem comparator_shortcircuit_amended_witness :
    needsUpdateDecision (some ⟨9, 9, 9, 9⟩) ⟨some "app.exe", some "u", none, some "t1"⟩
      ⟨none, some "t1", none, none⟩ = false :=
  comparator_shortcircuit_amended ⟨some "app.exe", some "u", none, some "t1"⟩
    ⟨none, some "t1", none, none⟩ (some ⟨9, 9, 9, 9⟩) rfl (by decide)

theorem mem_candidates {rels : List Release} {b : Bool} {c : Cand}
    (h : c ∈ candidates rels b) :
    c.rel ∈ rels ∧ c.rel.draft = false
      ∧ (b = false → c.rel.prerelease = false) := by
  unfold candidates at h
  rw [List.mem_flatMap] at h
  obtain ⟨rel, hrel, hc⟩ := h
  by_cases hd : rel.draft
  · simp [hd] at hc
  · by_cases hp : (!b && rel.prerelease)
    · simp [hd, hp] at hc
    · simp only [hd, if_false, hp, Bool.false_eq_true, if_neg, List.mem_map,
        List.mem_filter] at hc
      obtain ⟨a, ha, rfl⟩ := hc
      refine ⟨hrel, by simpa using hd, ?_⟩
      intro hb
      subst hb
      simpa using hp

theorem candidates_mem_intro {rels : List Release} {rel : Release} {a : Asset}
    (hrel : rel ∈ rels) (hd : rel.draft = false) (hp : rel.prerelease = false)
    (ha : a ∈ rel.assets)
    (he : strEndsWith (strLower (pyOr a.name "")) ".exe" = true) :
    (⟨rel, a, parse_semver (pyOr rel.tag_name "")⟩ : Cand)
      ∈ candidates rels false := by
  unfold candidates
  rw [List.mem_flatMap]
  refine ⟨rel, hrel, ?_⟩
  simp only [hd, hp, Bool.false_eq_true, if_false, Bool.and_false, List.mem_map,
    List.mem_filter]
  exact ⟨a, ⟨ha, he⟩, rfl⟩

theorem pickBestAux_isSome (pLc pStem : String) (l : List Cand)
    (b : Option (SelKey × Cand)) (hb : b.isSome) :
    (pickBestAux pLc pStem b l).isSome := by
  induction l generalizing b with
  | nil => exact hb
  | cons c rest ih =>
    unfold pickBestAux
    apply ih
    cases b with
    | none => rfl
    | some bb =>
      by_cases hk : keyGtB (selKey pLc pStem c) bb.1 <;> simp [hk]

theorem pickBestAux_mem (pLc pStem : String) (l : List Cand)
    (b : Option (SelKey × Cand)) (r : SelKey × Cand)
    (h : pickBestAux pLc pStem b l = some r) :
    (∃ c ∈ l, r = (selKey pLc pStem c, c)) ∨ b = some r := by
  induction l generalizing b with
  | nil => exact Or.inr h
  | cons c rest ih =>
    unfold pickBestAux at h
    rcases ih _ h with ⟨c2, hc2, hr⟩ | hb
    · exact Or.inl ⟨c2, List.mem_cons_of_mem c hc2, hr⟩
    · cases b with
      | none =>
        left
        refine ⟨c, List.mem_cons_self c rest, ?_⟩
        simpa using hb.symm
      | some bb =>
        by_cases hk : keyGtB (selKey pLc pStem c) bb.1
        · simp only [hk, if_true] at hb
          exact Or.inl ⟨c, List.mem_cons_self c rest, (Option.some.inj hb).symm⟩
        · simp only [hk, if_false] at hb
          exact Or.inr hb

theorem find_best_mem (rels : List Release) (pref : String) (r : SelKey × Cand)
    (h : find_best rels pref = some r) :
    r.2 ∈ candidates rels false ∨ r.2 ∈ candidates rels true := by
  unfold find_best at h
  cases hA : pickBestAux (prefLc pref) (prefStem pref) none
      (candidates rels false) with
  | some b =>
    rw [hA] at h
    rcases pickBestAux_mem _ _ _ _ _ hA with ⟨c2, hc2, hr⟩ | hb
    · left
      have : b = r := Option.some.inj h
      subst this
      rw [hr]
      exact hc2
    · exact absurd hb (by simp)
  | none =>
    rw [hA] at h
    rcases pickBestAux_mem _ _ _ _ _ h with ⟨c2, hc2, hr⟩ | hb
    · right
      rw [hr]
      exact hc2
    · exact absurd hb (by simp)

/-- C3: pass-A dominance. If any non-draft, non-prerelease release has
an asset whose (lowercased) filename ends in `.exe`, the selected
candidate's release is not a prerelease, whatever versions appear
anywhere. -/
theorem selector_passA_dominance (rels : List Release) (pref : String)
    (k : SelKey) (c : Cand)
    (hstable : ∃ rel ∈ rels, rel.draft = false ∧ rel.prerelease = false ∧
        ∃ a ∈ rel.assets, strEndsWith (strLower (pyOr a.name "")) ".exe" = true)
    (hfind : find_best rels pref = some (k, c)) :
    c.rel.prerelease = false := by
  obtain ⟨rel, hrel, hd, hp, a, ha, he⟩ := hstable
  have hne : candidates rels false ≠ [] :=
    List.ne_nil_of_mem (candidates_mem_intro hrel hd hp ha he)
  unfold find_best at hfind
  cases hA : pickBestAux (prefLc pref) (prefStem pref) none
      (candidates rels false) with
  | some b =>
    rw [hA] at hfind
    rcases pickBestAux_mem _ _ _ _ _ hA with ⟨c2, hc2, hr⟩ | hb
    · have hbr : b = (k, c) := Option.some.inj hfind
      subst hbr
      have : c = c2 := by
        have := hr
        simp only [Prod.mk.injEq] at this
        exact this.2
      subst this
      exact (mem_candidates hc2).2.2 rfl
    · exact absurd hb (by simp)
  | none =>
    exfalso
    cases hl : candidates rels false with
    | nil => exact hne hl
    | cons c0 rest =>
      have hs : (pickBestAux (prefLc pref) (prefStem pref) none
          (candidates rels false)).isSome := by
        rw [hl]
        unfold pickBestAux
        exact pickBestAux_isSome _ _ rest _ rfl
      rw [hA] at hs
      simp at hs

/-- Witness for C3: a catalog holding one stable release and one
prerelease with a strictly higher version still selects from pass A. -/
theorem selector_passA_dominance_witness :
    (⟨⟨false, false, some "1.0.0",
        [⟨some "admindashboard-1.0.0.exe", some "u1", some ""⟩]⟩,
      ⟨some "admindashboard-1.0.0.exe", some "u1", some ""⟩,
      some ⟨1, 0, 0, 0⟩⟩ : Cand).rel.prerelease = false :=
  selector_passA_dominance c3rels "" ⟨1, true, ⟨1, 0, 0, 0⟩, ""⟩
    ⟨⟨false, false, some "1.0.0",
        [⟨some "admindashboard-1.0.0.exe", some "u1", some ""⟩]⟩,
      ⟨some "admindashboard-1.0.0.exe", some "u1", some ""⟩,
      some ⟨1, 0, 0, 0⟩⟩ (by decide) (by decide)

/-- C8: draft exclusion. The selected candidate's release is never a
draft, whatever its version, prerelease flag, name affinity or
timestamp. -/
theorem selector_never_draft (rels : List Release) (pref : String)
    (k : SelKey) (c : Cand) (hfind : find_best rels pref = some (k, c)) :
    c.rel.draft = false := by
  rcases find_best_mem rels pref (k, c) hfind with h | h
  · exact (mem_candidates h).2.1
  · exact (mem_candidates h).2.1

/-- Witness for C8: a draft release with version 9.0.0 is passed over in
favour of a prerelease with version 0.1.0. -/
theorem selector_never_draft_witness :
    (⟨⟨false, true, some "0.1.0",
        [⟨some "dashboard-0.1.0.exe", some "u0", some ""⟩]⟩,
      ⟨some "dashboard-0.1.0.exe", some "u0", some ""⟩,
      some ⟨0, 1, 0, 0⟩⟩ : Cand).rel.draft = false :=
  selector_never_draft c8rels "" ⟨1, true, ⟨0, 1, 0, 0⟩, ""⟩
    ⟨⟨false, true, some "0.1.0",
        [⟨some "dashboard-0.1.0.exe", some "u0", some ""⟩]⟩,
      ⟨some "dashboard-0.1.0.exe", some "u0", some ""⟩,
      some ⟨0, 1, 0, 0⟩⟩ (by decide)

theorem handle_flow_true_elim (env : MainEnv) (argv : List String)
    (hrole : argv.contains "--apply-update" = false)
    (h : handle_update_flow env argv = true) :
    ∃ rels pick, env.fetch = .ok rels
      ∧ find_latest_exe_asset rels env.exeBasename = some pick
      ∧ pyOr pick.download_url "" ≠ ""
      ∧ needsUpdateDecision env.currentV pick env.st = true
      ∧ env.copyOk = true ∧ env.spawnOk = true := by
  unfold handle_update_flow flowOutcome at h
  simp only [hrole, Bool.false_eq_true, if_false] at h
  split at h
  · rename_i heq
    repeat' split at heq
    all_goals exact MainOutcome.noConfusion heq
  · rename_i heq
    repeat' split at heq
    all_goals try exact MainOutcome.noConfusion heq
    exact ⟨_, _, by assumption, by assumption, by assumption, by assumption,
      by assumption, by assumption⟩
  · exact Bool.noConfusion h

/-- C7: main-role total degradation. With no apply-update marker the
orchestrator is a total function (the model cannot raise), and a failed
fetch, an empty selection, a failed temp-copy or a failed spawn — as
well as a no-update decision — each make it return `false`, i.e. proceed
to normal logic without updating; `true` needs every step to succeed. -/
theorem main_role_degradation (env : MainEnv) (argv : List String)
    (hrole : argv.contains "--apply-update" = false) :
    (env.fetch = .error () → handle_update_flow env argv = false)
    ∧ (∀ rels, env.fetch = .ok rels →
        find_latest_exe_asset rels env.exeBasename = none →
        handle_update_flow env argv = false)
    ∧ (env.copyOk = false → handle_update_flow env argv = false)
    ∧ (env.spawnOk = false → handle_update_flow env argv = false)
    ∧ (∀ rels pick, env.fetch = .ok rels →
        find_latest_exe_asset rels env.exeBasename = some pick →
        needsUpdateDecision env.currentV pick env.st = false →
        handle_update_flow env argv = false)
    ∧ (handle_update_flow env argv = true →
        ∃ rels pick, env.fetch = .ok rels
          ∧ find_latest_exe_asset rels env.exeBasename = some pick
          ∧ pyOr pick.download_url "" ≠ ""
          ∧ needsUpdateDecision env.currentV pick env.st = true
          ∧ env.copyOk = true ∧ env.spawnOk = true) := by
  refine ⟨?_, ?_, ?_, ?_, ?_, handle_flow_true_elim env argv hrole⟩
  · intro hf
    by_contra hne
    have h : handle_update_flow env argv = true := by
      cases hh : handle_update_flow env argv
      · exact absurd hh hne
      · rfl
    obtain ⟨rels, pick, hfe, _⟩ := handle_flow_true_elim env argv hrole h
    rw [hf] at hfe
    exact Except.noConfusion hfe
  · intro rels hfe hnone
    by_contra hne
    have h : handle_update_flow env argv = true := by
      cases hh : handle_update_flow env argv
      · exact absurd hh hne
      · rfl
    obtain ⟨rels2, pick, hfe2, hpk, _⟩ := handle_flow_true_elim env argv hrole h
    rw [hfe] at hfe2
    have : rels = rels2 := Except.ok.inj hfe2
    subst this
    rw [hnone] at hpk
    exact Option.noConfusion hpk
  · intro hcopy
    by_contra hne
    have h : handle_update_flow env argv = true := by
      cases hh : handle_update_flow env argv
      · exact absurd hh hne
      · rfl
    obtain ⟨_, _, _, _, _, _, hc, _⟩ := handle_flow_true_elim env argv hrole h
    rw [hcopy] at hc
    exact Bool.noConfusion hc
  · intro hspawn
    by_contra hne
    have h : handle_update_flow env argv = true := by
      cases hh : handle_update_flow env argv
      · exact absurd hh hne
      · rfl
    obtain ⟨_, _, _, _, _, _, _, hs⟩ := handle_flow_true_elim env argv hrole h
    rw [hspawn] at hs
    exact Bool.noConfusion hs
  · intro rels pick hfe hpk hneeds
    by_contra hne
    have h : handle_update_flow env argv = true := by
      cases hh : handle_update_flow env argv
      · exact absurd hh hne
      · rfl
    obtain ⟨rels2, pick2, hfe2, hpk2, _, hn2, _⟩ :=
      handle_flow_true_elim env argv hrole h
    rw [hfe] at hfe2
    have : rels = rels2 := Except.ok.inj hfe2
    subst this
    rw [hpk] at hpk2
    have : pick = pick2 := Option.some.inj hpk2
    subst this
    rw [hneeds] at hn2
    exact Bool.noConfusion hn2

/-- Witness for C7: a failed catalog fetch makes the main role return
`false`. -/
theorem main_role_degradation_witness :
    handle_update_flow ⟨true, .error (), "x", none, {}, true, true⟩ ["run"] = false :=
  (main_role_degradation ⟨true, .error (), "x", none, {}, true, true⟩ ["run"]
    (by decide)).1 rfl

/-- C5: backup-rename atomicity. When the task is well-formed, the
download succeeds, the target exists and the retried rename of the
target to its `.old` backup ultimately fails, the run takes the failure
path without ever attempting the rename of the downloaded artifact into
the target; the target and backup slots are exactly as before and the
downloaded artifact still sits in the temp slot. -/
theorem installer_backup_abort (env : InstallerEnv) (fs0 : FS)
    (argv : List String) (u t : String) (rv : Option String)
    (pass : List String)
    (hparse : _parse_apply_args argv = (some u, some t, rv, pass))
    (hu : u ≠ "") (ht : t ≠ "")
    (hdl : env.downloadOk = true)
    (htgt : fs0.target.isSome = true)
    (hbr : env.backupRenameOk = false) :
    (run_apply_update env fs0 argv).failed = true
    ∧ (run_apply_update env fs0 argv).installRenameAttempted = false
    ∧ (run_apply_update env fs0 argv).fs.target = fs0.target
    ∧ (run_apply_update env fs0 argv).fs.backup = fs0.backup
    ∧ (run_apply_update env fs0 argv).fs.tmp = some env.downloadedContent
    ∧ (run_apply_update env fs0 argv).fs.stateFile = fs0.stateFile := by
  have hrun : run_apply_update env fs0 argv =
      failResult env { fs0 with tmp := some env.downloadedContent }
        t (t ++ ".old") pass false := by
    unfold run_apply_update
    rw [hparse]
    dsimp only
    rw [if_neg (by simp [hu, ht])]
    unfold installBody
    rw [if_pos hdl]
    rw [if_pos (by simpa using htgt)]
    rw [if_neg (by simp [hbr])]
  rw [hrun]
  unfold failResult
  exact ⟨rfl, rfl, rfl, rfl, rfl, rfl⟩

/-- Witness for C5 at a concrete input. -/
theorem installer_backup_abort_witness :
    (run_apply_update ⟨true, 7, false, true, true, "n", true, true, true, true⟩
        ⟨some 5, some 6, none, {}⟩ ["--url", "u", "--target", "t.exe"]).failed = true
    ∧ (run_apply_update ⟨true, 7, false, true, true, "n", true, true, true, true⟩
        ⟨some 5, some 6, none, {}⟩
        ["--url", "u", "--target", "t.exe"]).installRenameAttempted = false
    ∧ (run_apply_update ⟨true, 7, false, true, true, "n", true, true, true, true⟩
        ⟨some 5, some 6, none, {}⟩ ["--url", "u", "--target", "t.exe"]).fs.target
        = (⟨some 5, some 6, none, {}⟩ : FS).target
    ∧ (run_apply_update ⟨true, 7, false, true, true, "n", true, true, true, true⟩
        ⟨some 5, some 6, none, {}⟩ ["--url", "u", "--target", "t.exe"]).fs.backup
        = (⟨some 5, some 6, none, {}⟩ : FS).backup
    ∧ (run_apply_update ⟨true, 7, false, true, true, "n", true, true, true, true⟩
        ⟨some 5, some 6, none, {}⟩ ["--url", "u", "--target", "t.exe"]).fs.tmp
        = some 7
    ∧ (run_apply_update ⟨true, 7, false, true, true, "n", true, true, true, true⟩
        ⟨some 5, some 6, none, {}⟩ ["--url", "u", "--target", "t.exe"]).fs.stateFile
        = (⟨some 5, some 6, none, {}⟩ : FS).stateFile :=
  installer_backup_abort ⟨true, 7, false, true, true, "n", true, true, true, true⟩
    ⟨some 5, some 6, none, {}⟩ ["--url", "u", "--target", "t.exe"]
    "u" "t.exe" none [] (by decide) (by decide) (by decide) rfl rfl rfl

/-- C6 counterexample: a failing run (download fails) where the target
exists but its spawn fails and the backup also exists: the fallback
attempts two spawns, not exactly one. -/
theorem relaunch_counterexample :
    (run_apply_update ⟨false, 7, true, true, true, "n", false, true, true, true⟩
        ⟨some 1, some 2, none, {}⟩ ["--url", "u", "--target", "t.exe"]).failed = true
    ∧ (run_apply_update ⟨false, 7, true, true, true, "n", false, true, true, true⟩
        ⟨some 1, some 2, none, {}⟩ ["--url", "u", "--target", "t.exe"]).spawnAttempts
        = [("t.exe", []), ("t.exe.old", [])]
    ∧ (run_apply_update ⟨false, 7, true, true, true, "n", false, true, true, true⟩
        ⟨some 1, some 2, none, {}⟩
        ["--url", "u", "--target", "t.exe"]).spawnAttempts.length ≠ 1 := by decide

/-- C6 amended: on any failing run the fallback attempts the candidates
in order (target, then backup), launching the first that exists,
attempting the backup as well only when the target's spawn itself failed
or the target is missing, stopping at the first success, passing the
original passthrough arguments, and never raising (the modelled run is
total and its failure branch always returns). -/
theorem relaunch_fallback_amended (env : InstallerEnv) (fs : FS) (t b : String)
    (pass : List String) (fs0 : FS) (argv : List String) (u tg : String)
    (rv : Option String) (ps : List String)
    (ht : t ≠ "") (hb : b ≠ "")
    (hparse : _parse_apply_args argv = (some u, some tg, rv, ps))
    (hu : u ≠ "") (htg : tg ≠ "")
    (hfail : (run_apply_update env fs0 argv).failed = true) :
    ((relaunchFallback env fs t b pass).1 =
      if fs.target.isSome then
        if env.spawnTargetOk then [(t, pass)]
        else if fs.backup.isSome then [(t, pass), (b, pass)] else [(t, pass)]
      else if fs.backup.isSome then [(b, pass)] else [])
    ∧ ((relaunchFallback env fs t b pass).2 =
      if fs.target.isSome then
        if env.spawnTargetOk then [(t, pass)]
        else if fs.backup.isSome then
          (if env.spawnBackupOk then [(b, pass)] else []) else []
      else if fs.backup.isSome then
        (if env.spawnBackupOk then [(b, pass)] else []) else [])
    ∧ (run_apply_update env fs0 argv).spawnAttempts
        = (relaunchFallback env (fsAtFailure env fs0) tg (tg ++ ".old") ps).1
    ∧ (run_apply_update env fs0 argv).spawned
        = (relaunchFallback env (fsAtFailure env fs0) tg (tg ++ ".old") ps).2 := by
  have hrun : run_apply_update env fs0 argv = installBody env fs0 tg rv ps := by
    unfold run_apply_update
    rw [hparse]
    dsimp only
    rw [if_neg (by simp [hu, htg])]
  have hkey : ∃ fl, run_apply_update env fs0 argv
      = failResult env (fsAtFailure env fs0) tg (tg ++ ".old") ps fl := by
    rw [hrun] at hfail ⊢
    by_cases hdl : env.downloadOk
    · by_cases htgt : fs0.target.isSome
      · by_cases hbr : env.backupRenameOk
        · by_cases hins : env.installRenameOk
          · exfalso
            unfold installBody installRenameStep successLaunch at hfail
            by_cases hl : env.launchNewOk <;>
              by_cases hsv : env.saveOk <;>
                simp [hdl, htgt, hbr, hins, hl, hsv] at hfail
          · refine ⟨true, ?_⟩
            unfold installBody installRenameStep fsAtFailure
            simp only [Bool.not_eq_true] at hins
            simp [hdl, htgt, hbr, hins]
        · refine ⟨false, ?_⟩
          unfold installBody fsAtFailure
          simp only [Bool.not_eq_true] at hbr
          simp [hdl, htgt, hbr]
      · by_cases hins : env.installRenameOk
        · exfalso
          unfold installBody installRenameStep successLaunch at hfail
          by_cases hl : env.launchNewOk <;>
            by_cases hsv : env.saveOk <;>
              simp [hdl, htgt, hins, hl, hsv] at hfail
        · refine ⟨true, ?_⟩
          unfold installBody installRenameStep fsAtFailure
          simp only [Bool.not_eq_true] at hins
          simp only [Bool.not_eq_true] at htgt
          simp [hdl, htgt, hins]
    · refine ⟨false, ?_⟩
      unfold installBody fsAtFailure
      simp only [Bool.not_eq_true] at hdl
      simp [hdl]
  obtain ⟨fl, hk⟩ := hkey
  refine ⟨?_, ?_, ?_, ?_⟩
  · unfold relaunchFallback relaunchLoop
    rw [if_neg ht]
    by_cases h1 : fs.target.isSome <;> by_cases h2 : env.spawnTargetOk <;>
      by_cases h3 : fs.backup.isSome <;> by_cases h4 : env.spawnBackupOk <;>
        simp [relaunchLoop, h1, h2, h3, h4, ht, hb]
  · unfold relaunchFallback relaunchLoop
    rw [if_neg ht]
    by_cases h1 : fs.target.isSome <;> by_cases h2 : env.spawnTargetOk <;>
      by_cases h3 : fs.backup.isSome <;> by_cases h4 : env.spawnBackupOk <;>
        simp [relaunchLoop, h1, h2, h3, h4, ht, hb]
  · rw [hk]
    rfl
  · rw [hk]
    rfl

theorem successLaunch_stateFile (env : InstallerEnv) (fs : FS) (t : String)
    (ps : List String) : (successLaunch env fs t ps).fs.stateFile = fs.stateFile := by
  unfold successLaunch
  by_cases hl : env.launchNewOk <;>
    by_cases hc : (fs.backup.isSome && env.removeOldOk) = true <;>
      simp [hl, hc]

theorem successLaunch_failed (env : InstallerEnv) (fs : FS) (t : String)
    (ps : List String) : (successLaunch env fs t ps).failed = false := by
  unfold successLaunch
  by_cases hl : env.launchNewOk <;>
    by_cases hc : (fs.backup.isSome && env.removeOldOk) = true <;>
      simp [hl, hc]

theorem successLaunch_renTried (env : InstallerEnv) (fs : FS) (t : String)
    (ps : List String) : (successLaunch env fs t ps).installRenameAttempted = true := by
  unfold successLaunch
  by_cases hl : env.launchNewOk <;>
    by_cases hc : (fs.backup.isSome && env.removeOldOk) = true <;>
      simp [hl, hc]

theorem installBody_cases (env : InstallerEnv) (fs : FS) (t : String)
    (rv : Option String) (ps : List String) :
    ((installBody env fs t rv ps).failed = true →
      (installBody env fs t rv ps).fs.stateFile = fs.stateFile)
    ∧ ((installBody env fs t rv ps).fs.stateFile ≠ fs.stateFile →
      (installBody env fs t rv ps).failed = false ∧ env.downloadOk = true
      ∧ env.installRenameOk = true ∧ env.saveOk = true
      ∧ (fs.target.isSome = true → env.backupRenameOk = true)
      ∧ (installBody env fs t rv ps).installRenameAttempted = true
      ∧ (installBody env fs t rv ps).fs.stateFile
          = stateAfterInstall rv env.nowString t fs.stateFile) := by
  by_cases hdl : env.downloadOk <;> by_cases htgt : fs.target.isSome <;>
    by_cases hbr : env.backupRenameOk <;> by_cases hins : env.installRenameOk <;>
      by_cases hsv : env.saveOk <;>
        constructor <;> intro h <;>
          simp_all [installBody, installRenameStep, failResult,
            successLaunch_stateFile, successLaunch_failed, successLaunch_renTried]

/-- C9: installer state-write atomicity. A failed run leaves the
persisted state file exactly as it was; and whenever the run changed the
state file, the run did not fail, the download and the rename of the
downloaded artifact both succeeded (the backup rename too, when a target
existed), and the new contents are precisely the record the source
writes after the install renames. -/
theorem installer_state_atomicity (env : InstallerEnv) (fs0 : FS)
    (argv : List String) :
    ((run_apply_update env fs0 argv).failed = true →
      (run_apply_update env fs0 argv).fs.stateFile = fs0.stateFile)
    ∧ ((run_apply_update env fs0 argv).fs.stateFile ≠ fs0.stateFile →
      (run_apply_update env fs0 argv).failed = false ∧ env.downloadOk = true
      ∧ env.installRenameOk = true ∧ env.saveOk = true
      ∧ (fs0.target.isSome = true → env.backupRenameOk = true)
      ∧ (run_apply_update env fs0 argv).installRenameAttempted = true
      ∧ ∃ t rv, (run_apply_update env fs0 argv).fs.stateFile
          = stateAfterInstall rv env.nowString t fs0.stateFile) := by
  rcases hp : _parse_apply_args argv with ⟨u, t2, rv, ps⟩
  rcases u with _ | us
  · have hrun : run_apply_update env fs0 argv = noEffect fs0 := by
      unfold run_apply_update
      rw [hp]
    rw [hrun]
    exact ⟨fun h => rfl, fun h => absurd rfl h⟩
  · rcases t2 with _ | ts
    · have hrun : run_apply_update env fs0 argv = noEffect fs0 := by
        unfold run_apply_update
        rw [hp]
      rw [hrun]
      exact ⟨fun h => rfl, fun h => absurd rfl h⟩
    · by_cases he : us = "" ∨ ts = ""
      · have hrun : run_apply_update env fs0 argv = noEffect fs0 := by
          unfold run_apply_update
          rw [hp]
          dsimp only
          rw [if_pos he]
        rw [hrun]
        exact ⟨fun h => rfl, fun h => absurd rfl h⟩
      · have hrun : run_apply_update env fs0 argv = installBody env fs0 ts rv ps := by
          unfold run_apply_update
          rw [hp]
          dsimp only
          rw [if_neg he]
        rw [hrun]
        have hc := installBody_cases env fs0 ts rv ps
        exact ⟨hc.1, fun h =>
          ⟨(hc.2 h).1, (hc.2 h).2.1, (hc.2 h).2.2.1, (hc.2 h).2.2.2.1,
           (hc.2 h).2.2.2.2.1, (hc.2 h).2.2.2.2.2.1,
           ts, rv, (hc.2 h).2.2.2.2.2.2⟩⟩

/-- Witness for C9: a run whose install rename fails leaves the state
file untouched. -/
theorem installer_state_atomicity_witness :
    (run_apply_update ⟨true, 7, true, false, true, "n", true, true, true, true⟩
        ⟨some 5, none, none, ⟨some "old", some "old", none, none⟩⟩
        ["--url", "u", "--target", "t.exe"]).fs.stateFile
      = (⟨some 5, none, none, ⟨some "old", some "old", none, none⟩⟩ : FS).stateFile :=
  (installer_state_atomicity ⟨true, 7, true, false, true, "n", true, true, true, true⟩
      ⟨some 5, none, none, ⟨some "old", some "old", none, none⟩⟩
      ["--url", "u", "--target", "t.exe"]).1 (by decide)

/-- Witness for the amended C6 at a concrete input: target exists and
spawns fine, so exactly one attempt. -/
theorem relaunch_fallback_amended_witness :
    (relaunchFallback ⟨false, 3, true, true, true, "n", true, true, true, true⟩
        ⟨some 1, none, none, {}⟩ "a.exe" "a.exe.old" ["x"]).1
      = [("a.exe", ["x"])] := by
  have h := relaunch_fallback_amended
    ⟨false, 3, true, true, true, "n", true, true, true, true⟩
    ⟨some 1, none, none, {}⟩ "a.exe" "a.exe.old" ["x"]
    ⟨some 1, none, none, {}⟩ ["--url", "u", "--target", "z.exe"] "u" "z.exe"
    none [] (by decide) (by decide) (by decide) (by decide) (by decide)
    (by decide)
  rw [h.1]
  decide

theorem splitAtDashDash_append (pre post : List String) (h : "--" ∉ pre) :
    splitAtDashDash (pre ++ "--" :: post) = (pre, post) := by
  induction pre with
  | nil => simp [splitAtDashDash]
  | cons a rest ih =>
    rw [List.cons_append]
    unfold splitAtDashDash
    rw [if_neg (by
      intro hq
      exact h (by rw [← hq] at *; exact List.mem_cons_self a rest))]
    simp only [ih (fun hm => h (List.mem_cons_of_mem a hm))]

/-- C10: a malformed update task is a no-op. An argument vector whose
scan yields no `--url` value or no `--target` value makes the installer
return with the filesystem unchanged, nothing downloaded, no rename
attempted and no process spawned; and tokens after the first `--`
separator are never scanned as option flags — they become the
passthrough verbatim. -/
theorem installer_malformed_noop (env : InstallerEnv) (fs0 : FS)
    (argv : List String) :
    (((_parse_apply_args argv).1 = none ∨ (_parse_apply_args argv).2.1 = none) →
      run_apply_update env fs0 argv = noEffect fs0)
    ∧ (∀ (pre post : List String), "--" ∉ pre →
        _parse_apply_args (pre ++ "--" :: post) =
          ((scanApplyArgs none none none pre).1,
           (scanApplyArgs none none none pre).2.1,
           (scanApplyArgs none none none pre).2.2, post)) := by
  constructor
  · intro h
    rcases hp : _parse_apply_args argv with ⟨u, t2, rv, ps⟩
    rw [hp] at h
    rcases u with _ | us
    · unfold run_apply_update
      rw [hp]
    · rcases t2 with _ | ts
      · unfold run_apply_update
        rw [hp]
      · rcases h with h | h <;> exact Option.noConfusion h
  · intro pre post hpre
    unfold _parse_apply_args
    rw [splitAtDashDash_append pre post hpre]

/-- Witness for C10: a task with no `--url` leaves everything untouched. -/
theorem installer_malformed_noop_witness :
    run_apply_update ⟨true, 1, true, true, true, "n", true, true, true, true⟩
      ⟨some 1, none, none, {}⟩ ["--apply-update", "--target", "x"]
      = noEffect ⟨some 1, none, none, {}⟩ :=
  (installer_malformed_noop ⟨true, 1, true, true, true, "n", true, true, true, true⟩
    ⟨some 1, none, none, {}⟩ ["--apply-update", "--target", "x"]).1
    (Or.inl (by decide))

theorem pyOrOpt_same (s : String) : pyOrOpt (some s) (some s) = some s := by
  unfold pyOrOpt
  by_cases h : s = "" <;> simp [h]

/-- C2 amended: after a successful install that persisted the task's
remote identifier (both state keys set to it), a re-run over an
unchanged catalog selects the same artifact and the comparator decides
no update — provided the re-run's readable own version, when present, is
not strictly below the candidate's parsed version, and the candidate's
release carries a tag when no version parses; the run then ends at the
up-to-date return, so no download happens and no installer is spawned. -/
theorem roundtrip_amended (rels : List Release) (pref : String) (pick : Pick)
    (st0 : InstalledStateFile) (now path : String) (env2 : MainEnv)
    (argv2 : List String)
    (hfind : find_latest_exe_asset rels pref = some pick)
    (hst : env2.st = stateAfterInstall (some (pyOr (remoteId pick) "")) now path st0)
    (htag : pick.version_tuple = none → pick.release_tag ≠ none)
    (hcur : ∀ r c, pick.version_tuple = some r → env2.currentV = some c →
        verGtB r c = false)
    (hfetch : env2.fetch = .ok rels) (hexe : env2.exeBasename = pref)
    (hfrozen : env2.frozen = true)
    (hrole : argv2.contains "--apply-update" = false)
    (hskip : argv2.contains "--skip-update" = false)
    (hurl : pyOr pick.download_url "" ≠ "") :
    needsUpdateDecision env2.currentV pick env2.st = false
    ∧ flowOutcome env2 argv2 = .upToDate
    ∧ handle_update_flow env2 argv2 = false := by
  have hid : pyOrOpt env2.st.installed_remote_id env2.st.installed_remote_version
      = some (pyOr (remoteId pick) "") := by
    rw [hst]
    unfold stateAfterInstall
    exact pyOrOpt_same _
  have hneeds : needsUpdateDecision env2.currentV pick env2.st = false := by
    cases hv : pick.version_tuple with
    | none =>
      rcases hrt : pick.release_tag with _ | tag
      · exact absurd hrt (htag hv)
      · by_cases hte : tag = ""
        · simp [needsUpdateDecision, remoteId, hv, hrt, hte, hid, pyOr]
        · simp [needsUpdateDecision, remoteId, hv, hrt, hte, hid, pyOr]
    | some r =>
      cases hc : env2.currentV with
      | some c =>
        have hgt := hcur r c hv hc
        simp [needsUpdateDecision, hv, hgt, hid]
      | none =>
        by_cases hvs : versionToString r = "" <;>
          simp [needsUpdateDecision, remoteId, hv, hid, pyOr, pyStr, hvs]
  have hrole2 : "--apply-update" ∉ argv2 := by simpa using hrole
  have hskip2 : "--skip-update" ∉ argv2 := by simpa using hskip
  refine ⟨hneeds, ?_, ?_⟩
  · simp [flowOutcome, hrole2, hfrozen, hskip2, hfetch, hexe, hfind, hneeds, hurl]
  · unfold handle_update_flow
    simp [flowOutcome, hrole2, hfrozen, hskip2, hfetch, hexe, hfind, hneeds, hurl]

/-- Witness for the amended C2 at a concrete input: catalog `w2rels`,
installer persisted `1.2.3.0`, own version unreadable on the re-run. -/
theorem roundtrip_amended_witness :
    needsUpdateDecision w2env.currentV w2pick w2env.st = false
    ∧ flowOutcome w2env ["run"] = .upToDate
    ∧ handle_update_flow w2env ["run"] = false :=
  roundtrip_amended w2rels "x" w2pick {} "now" "p" w2env ["run"]
    (by decide) (by decide) (by decide)
    (fun _ _ _ hc => Option.noConfusion hc)
    rfl rfl rfl (by decide) (by decide) (by decide)

/-- C2 counterexample: the catalog `c2rels` offers a stable asset parsed
as 1.2.0.0; an install succeeds and persists identifier `1.2.0.0`; on
the re-run over the unchanged catalog the same artifact is selected, but
because the freshly installed binary's own embedded version reads as
1.0.0.0 (the comparator consults it, not the persisted state, whenever
both versions exist), the comparator orders an update again and a new
installer is spawned. -/
theorem roundtrip_counterexample :
    find_latest_exe_asset c2rels "app.exe" = some c2pick
    ∧ (run_apply_update instEnvOk c2fs0
        (installerCmdArgs c2pick "C:/app.exe" [])).failed = false
    ∧ (run_apply_update instEnvOk c2fs0
        (installerCmdArgs c2pick "C:/app.exe" [])).fs.stateFile = c2stAfter
    ∧ c2stAfter.installed_remote_id = some (pyOr (remoteId c2pick) "")
    ∧ needsUpdateDecision (some ⟨1, 0, 0, 0⟩) c2pick c2stAfter = true
    ∧ flowOutcome ⟨true, .ok c2rels, "app.exe", some ⟨1, 0, 0, 0⟩, c2stAfter,
        true, true⟩ ["run"] = .updateStarted
    ∧ handle_update_flow ⟨true, .ok c2rels, "app.exe", some ⟨1, 0, 0, 0⟩,
        c2stAfter, true, true⟩ ["run"] = true := by decide
